import Mathlib

/-!
Verification of the speed-estimation pipeline of `src/main.py`
(Astro Pi Mission Space Lab entry).

The development shallowly embeds the core functions of the program:

* `convert` — src/main.py lines 14–25: turn a signed decimal angle into the
  EXIF degrees/minutes/seconds rational triple (the string
  `"d/1,m/1,s10/10"` is represented by the rational triple it denotes).
* `extract_coordinates_and_timestamp` — lines 109–145: decode the GPS block
  and original-capture timestamp of an image's EXIF data.
* `haversine_distance` — lines 148–161: great-circle distance on a sphere of
  radius 6779 km.
* `calculate_speed` — lines 164–169: `abs(distance / seconds)`, with `none`
  standing for the `ZeroDivisionError` raised on a zero duration.
* `log_average_speed_to_txt` — lines 183–187: fixed-point rendering of the
  average with 4 fractional digits (Python `:.4f`, round-half-even).
* the aggregation loop of `main` — lines 199–237: walk adjacent image pairs,
  filter degenerate pairs, collect `SpeedSample`s and average them.

Python floats are modelled as `ℚ` where the code is exact decimal/rational
arithmetic (EXIF encode/decode, output formatting) and as `ℝ` where the code
uses `math` library transcendentals (haversine, speeds).
-/

namespace AstroPi

/-- Round half to even, as Python's fixed-point string formatting (`:.4f`,
`:.0f`) rounds the value being rendered. -/
def rhe (x : ℚ) : ℤ :=
  let f : ℤ := Int.floor x
  let r : ℚ := x - (f : ℚ)
  if r < 1 / 2 then f
  else if 1 / 2 < r then f + 1
  else if f % 2 = 0 then f else f + 1

/-- The GPS information block of an image's EXIF data (tag 0x8825), keyed by
the four GPS IFD entry numbers the program reads and writes.  Per the EXIF
layout (spec §6, and the tags `GPS.GPSLatitudeRef` / `GPS.GPSLatitude` /
`GPS.GPSLongitudeRef` / `GPS.GPSLongitude` written by `custom_capture`,
src/main.py lines 52–56): entry 1 is the latitude reference hemisphere
(`"N"`/`"S"`), entry 2 the latitude degrees/minutes/seconds rationals,
entry 3 the longitude reference hemisphere (`"E"`/`"W"`), entry 4 the
longitude degrees/minutes/seconds rationals. -/
structure GpsInfo where
  entry1 : String
  entry2 : ℚ × ℚ × ℚ
  entry3 : String
  entry4 : ℚ × ℚ × ℚ

/-- The two EXIF entries the extractor reads: the GPS block (tag 0x8825) and
the DateTimeOriginal string (tag 0x9003); `none` when a tag is absent. -/
structure ExifData where
  gpsInfo : Option GpsInfo
  dateTimeOriginal : Option String

/-- Embedding of `extract_coordinates_and_timestamp` (src/main.py lines
109–145), coordinate part.  Faithful to the source: the decoded latitude is
negated when entry **3** of the GPS block equals `"S"` (line 124 reads
`gps_info[3]`), and the decoded longitude is negated when entry **1** equals
`"W"` (line 126 reads `gps_info[1]`).  The timestamp string is returned as
read (its `strptime` parse carries no information the claims use). -/
def extract_coordinates_and_timestamp (e : ExifData) : Option (ℚ × ℚ × String) :=
  match e.gpsInfo, e.dateTimeOriginal with
  | some gps_info, some timestamp_str =>
    let latitude0 := gps_info.entry2.1 + gps_info.entry2.2.1 / 60 + gps_info.entry2.2.2 / 3600
    let longitude0 := gps_info.entry4.1 + gps_info.entry4.2.1 / 60 + gps_info.entry4.2.2 / 3600
    let latitude := if gps_info.entry3 = "S" then -latitude0 else latitude0
    let longitude := if gps_info.entry1 = "W" then -longitude0 else longitude0
    some (latitude, longitude, timestamp_str)
  | _, _ => none

/-- Embedding of `convert` (src/main.py lines 14–25).  `skyfield`'s
`Angle.signed_dms` splits the angle into a sign and the whole-degree,
whole-minute and remainder-second parts of its absolute value; the f-string
`f'{degrees:.0f}/1,{minutes:.0f}/1,{seconds*10:.0f}/10'` renders them as
EXIF rationals, keeping one decimal digit of the seconds via a ×10
numerator rounded to an integer (Python `:.0f` rounds half to even).  The
rational triple denoted by that string is returned, together with the
boolean `sign < 0`. -/
def convert (angle : ℚ) : Bool × (ℚ × ℚ × ℚ) :=
  let a : ℚ := |angle|
  let degrees : ℚ := (Int.floor a : ℚ)
  let minutes : ℚ := (Int.floor ((a - degrees) * 60) : ℚ)
  let seconds : ℚ := ((a - degrees) * 60 - minutes) * 60
  (angle < 0, (degrees, minutes, (rhe (seconds * 10) : ℚ) / 10))

/-- Embedding of the EXIF-writing part of `custom_capture` (src/main.py
lines 44–56): the latitude triple from `convert` goes to GPS entry 2 with
its hemisphere letter (`"S"` when negative, else `"N"`) at entry 1, and the
longitude triple to entry 4 with its hemisphere letter (`"W"` when negative,
else `"E"`) at entry 3. -/
def capture_gps_block (latAngle lonAngle : ℚ) : GpsInfo :=
  let latC := convert latAngle
  let lonC := convert lonAngle
  { entry1 := if latC.1 then "S" else "N"
    entry2 := latC.2
    entry3 := if lonC.1 then "W" else "E"
    entry4 := lonC.2 }

/-- One decimal digit as a character. -/
def digitCh (n : ℕ) : Char := Char.ofNat (48 + n % 10)

/-- Exactly four zero-padded decimal digits, as Python's `:.4f` renders the
fractional part. -/
def pad4 (n : ℕ) : String :=
  String.mk [digitCh (n / 1000), digitCh (n / 100), digitCh (n / 10), digitCh n]

/-- Embedding of the string written by `log_average_speed_to_txt`
(src/main.py lines 183–187): `f"{avg_speed:.4f} km/s\n"`.  Python's `:.4f`
renders the sign, then the value rounded half-to-even at the fourth
fractional digit, with an unpadded integer part, a dot, and exactly four
fractional digits. -/
def log_average_speed_line (avg_speed : ℚ) : String :=
  let n : ℕ := (rhe (|avg_speed| * 10000)).toNat
  let core : String := Nat.repr (n / 10000) ++ "." ++ pad4 (n % 10000) ++ " km/s\n"
  if avg_speed < 0 then "-" ++ core else core

open Classical

/-- Python's `math.atan2 y x`: the angle of the point `(x, y)`, in
`(-pi, pi]`, with `atan2 0 0 = 0`. -/
noncomputable def atan2 (y x : ℝ) : ℝ :=
  if 0 < x then Real.arctan (y / x)
  else if x < 0 then
    (if 0 ≤ y then Real.arctan (y / x) + Real.pi else Real.arctan (y / x) - Real.pi)
  else
    (if 0 < y then Real.pi / 2 else if y < 0 then -(Real.pi / 2) else 0)

/-- Python's `math.radians`: degrees to radians. -/
noncomputable def radians (deg : ℝ) : ℝ := deg * Real.pi / 180

/-- The intermediate quantity `a` of `haversine_distance` (src/main.py line
157): `sin(dlat/2)**2 + cos(lat1)*cos(lat2)*sin(dlon/2)**2` after the four
coordinates are converted to radians (line 152). -/
noncomputable def hav_a (lat1 lon1 lat2 lon2 : ℝ) : ℝ :=
  let rlat1 := radians lat1
  let rlon1 := radians lon1
  let rlat2 := radians lat2
  let rlon2 := radians lon2
  let dlat := rlat2 - rlat1
  let dlon := rlon2 - rlon1
  Real.sin (dlat / 2) ^ 2 + Real.cos rlat1 * Real.cos rlat2 * Real.sin (dlon / 2) ^ 2

/-- Embedding of `haversine_distance` (src/main.py lines 148–161): the
haversine great-circle distance over the fixed radius `R = 6779` km, with
`c = 2 * atan2(sqrt(a), sqrt(1 - a))`. -/
noncomputable def haversine_distance (lat1 lon1 lat2 lon2 : ℝ) : ℝ :=
  let R : ℝ := 6779
  let a := hav_a lat1 lon1 lat2 lon2
  let c := 2 * atan2 (Real.sqrt a) (Real.sqrt (1 - a))
  R * c

/-- Embedding of `calculate_speed` (src/main.py lines 164–169), taking the
time difference already converted to seconds (`timedelta.total_seconds()`).
Python raises `ZeroDivisionError` when dividing a float by zero; that
outcome is `none`.  Otherwise the result is `abs(distance / seconds)`. -/
noncomputable def calculate_speed (distance : ℝ) (time_in_seconds : ℝ) : Option ℝ :=
  if time_in_seconds = 0 then none else some |distance / time_in_seconds|

/-- A decoded fix: the latitude and longitude (decimal degrees) and the
capture timestamp (seconds on the `datetime` timeline) that
`extract_coordinates_and_timestamp` returns for an image. -/
structure Fix where
  lat : ℝ
  lon : ℝ
  ts : ℝ

/-- An image reference as the aggregation loop of `main` sees it: the file
path (the loop compares `images[i-1] == images[i]` on paths) and the result
of running `extract_coordinates_and_timestamp` on the file (`none` when the
required metadata is missing or unreadable). -/
structure Image where
  path : String
  exif : Option Fix

/-- One entry of the `speed_data` list of `main` (src/main.py line 231):
the tuple `(distance, time_difference, speed)`, with the time difference in
seconds. -/
structure SpeedSample where
  dist : ℝ
  elapsed : ℝ
  speed : ℝ

/-- The contribution of one adjacent image pair to `speed_data`
(src/main.py lines 206–232): `none` when either extraction fails, when the
degenerate-pair filter of lines 216–220 fires (identical paths, zero
haversine distance, or zero elapsed time), or when `calculate_speed` raises
`ZeroDivisionError` (line 232); otherwise the appended sample. -/
noncomputable def contrib (a b : Image) : Option SpeedSample :=
  match a.exif, b.exif with
  | some f1, some f2 =>
    if a.path = b.path ∨ haversine_distance f1.lat f1.lon f2.lat f2.lon = 0 ∨
        f2.ts - f1.ts = 0 then
      none
    else
      match calculate_speed (haversine_distance f1.lat f1.lon f2.lat f2.lon)
          (f2.ts - f1.ts) with
      | some s =>
        some ⟨haversine_distance f1.lat f1.lon f2.lat f2.lon, f2.ts - f1.ts, s⟩
      | none => none
  | _, _ => none

/-- The `speed_data` list built by the loop `for i in range(1, len(images))`
of `main` (src/main.py lines 206–232): the contributions of the adjacent
pairs `(images[i-1], images[i])`, in order. -/
noncomputable def speedData : List Image → List SpeedSample
  | [] => []
  | [_] => []
  | a :: b :: rest => (contrib a b).toList ++ speedData (b :: rest)

/-- The average speed computed by `main` (src/main.py lines 234–237):
`0` when `speed_data` is empty, else the sum of the speeds divided by the
number of samples. -/
noncomputable def avg_speed (images : List Image) : ℝ :=
  let sd := speedData images
  if 0 < sd.length then (sd.map SpeedSample.speed).sum / (sd.length : ℝ) else 0

lemma calculate_speed_of_ne (d t : ℝ) (ht : t ≠ 0) :
    calculate_speed d t = some |d / t| := if_neg ht

lemma calculate_speed_of_eq (d : ℝ) : calculate_speed d 0 = none := if_pos rfl

lemma calculate_speed_eq_none_iff (d t : ℝ) : calculate_speed d t = none ↔ t = 0 := by
  constructor
  · intro h
    by_contra ht
    rw [calculate_speed_of_ne d t ht] at h
    exact Option.some_ne_none _ h
  · intro h
    rw [h]
    exact calculate_speed_of_eq d

lemma contrib_of_cond (a b : Image) (f1 f2 : Fix) (ha : a.exif = some f1)
    (hb : b.exif = some f2)
    (h : a.path = b.path ∨ haversine_distance f1.lat f1.lon f2.lat f2.lon = 0 ∨
      f2.ts - f1.ts = 0) :
    contrib a b = none := by
  unfold contrib
  rw [ha, hb]
  exact if_pos h

lemma contrib_of_ok (a b : Image) (f1 f2 : Fix) (ha : a.exif = some f1)
    (hb : b.exif = some f2) (hp : ¬ a.path = b.path)
    (hd : haversine_distance f1.lat f1.lon f2.lat f2.lon ≠ 0)
    (ht : f2.ts - f1.ts ≠ 0) :
    contrib a b = some ⟨haversine_distance f1.lat f1.lon f2.lat f2.lon, f2.ts - f1.ts,
      |haversine_distance f1.lat f1.lon f2.lat f2.lon / (f2.ts - f1.ts)|⟩ := by
  unfold contrib
  simp only [ha, hb]
  rw [if_neg (by push_neg; exact ⟨hp, hd, ht⟩), calculate_speed_of_ne _ _ ht]

lemma contrib_inv (a b : Image) (s : SpeedSample) (h : contrib a b = some s) :
    ∃ f1 f2, a.exif = some f1 ∧ b.exif = some f2 ∧
      s.dist = haversine_distance f1.lat f1.lon f2.lat f2.lon ∧
      s.elapsed = f2.ts - f1.ts ∧
      s.speed = |s.dist / s.elapsed| ∧ s.dist ≠ 0 ∧ s.elapsed ≠ 0 := by
  unfold contrib at h
  cases ha : a.exif with
  | none =>
    simp only [ha] at h
    exact Option.noConfusion h
  | some f1 =>
    cases hb : b.exif with
    | none =>
      simp only [ha, hb] at h
      exact Option.noConfusion h
    | some f2 =>
      simp only [ha, hb] at h
      by_cases hcond : a.path = b.path ∨
          haversine_distance f1.lat f1.lon f2.lat f2.lon = 0 ∨ f2.ts - f1.ts = 0
      · rw [if_pos hcond] at h
        exact Option.noConfusion h
      · rw [if_neg hcond] at h
        push_neg at hcond
        obtain ⟨-, hd, ht⟩ := hcond
        rw [calculate_speed_of_ne _ _ ht] at h
        obtain rfl := Option.some_injective _ h
        exact ⟨f1, f2, rfl, rfl, rfl, rfl, rfl, hd, ht⟩

lemma speedData_nil : speedData [] = [] := rfl

lemma speedData_single (a : Image) : speedData [a] = [] := rfl

lemma speedData_cons₂ (a b : Image) (rest : List Image) :
    speedData (a :: b :: rest) = (contrib a b).toList ++ speedData (b :: rest) := rfl

lemma speedData_split (a b : Image) (hnone : contrib a b = none) (xs ys : List Image) :
    speedData (xs ++ a :: b :: ys) = speedData (xs ++ [a]) ++ speedData (b :: ys) := by
  induction xs with
  | nil => simp [speedData_cons₂, speedData_single, hnone]
  | cons x xs ih =>
    cases xs with
    | nil => simp [speedData_cons₂, speedData_single, hnone]
    | cons y ys' =>
      simp only [List.cons_append, speedData_cons₂] at ih ⊢
      rw [ih, List.append_assoc]

lemma sin_half_sq (x : ℝ) : Real.sin (x / 2) ^ 2 = (1 - Real.cos x) / 2 := by
  have h2 : 2 * (x / 2) = x := by ring
  rw [Real.sin_sq, Real.cos_sq, h2]
  ring

lemma atan2_nonneg (y x : ℝ) (hy : 0 ≤ y) : 0 ≤ atan2 y x := by
  unfold atan2
  by_cases hx : 0 < x
  · rw [if_pos hx]
    rw [← Real.arctan_zero]
    exact (Real.arctan_strictMono.monotone (div_nonneg hy hx.le))
  · rw [if_neg hx]
    by_cases hx' : x < 0
    · rw [if_pos hx', if_pos hy]
      have := Real.neg_pi_div_two_lt_arctan (y / x)
      have hpi := Real.pi_pos
      linarith
    · rw [if_neg hx']
      by_cases hy' : 0 < y
      · rw [if_pos hy']
        positivity
      · rw [if_neg hy', if_neg (by linarith : ¬ y < 0)]

lemma haversine_nonneg (lat1 lon1 lat2 lon2 : ℝ) :
    0 ≤ haversine_distance lat1 lon1 lat2 lon2 := by
  unfold haversine_distance
  have h := atan2_nonneg (Real.sqrt (hav_a lat1 lon1 lat2 lon2))
    (Real.sqrt (1 - hav_a lat1 lon1 lat2 lon2)) (Real.sqrt_nonneg _)
  positivity

lemma atan2_one_zero : atan2 1 0 = Real.pi / 2 := by
  unfold atan2
  rw [if_neg (lt_irrefl 0), if_neg (lt_irrefl 0), if_pos one_pos]

lemma hav_a_meridian_example : hav_a 0 0 0 180 = 1 := by
  unfold hav_a radians
  have h0 : (0 : ℝ) * Real.pi / 180 = 0 := by ring
  have h180 : (180 : ℝ) * Real.pi / 180 = Real.pi := by ring
  rw [h0, h180]
  norm_num [Real.sin_pi_div_two]

lemma haversine_example : haversine_distance 0 0 0 180 = 6779 * Real.pi := by
  unfold haversine_distance
  simp only [hav_a_meridian_example, sub_self, Real.sqrt_zero, Real.sqrt_one, atan2_one_zero]
  ring

lemma haversine_example_pos : 0 < haversine_distance 0 0 0 180 := by
  rw [haversine_example]
  positivity

lemma convert_neg_half_103 : convert (-(103 / 2)) = (true, (51, 30, 0)) := by
  simp only [convert]
  have ha : |(-(103 / 2) : ℚ)| = 103 / 2 := by
    rw [abs_of_nonpos (by norm_num)]; norm_num
  rw [ha]
  have hf1 : ⌊(103 / 2 : ℚ)⌋ = 51 := by norm_num
  rw [hf1]
  have h2 : ((103 / 2 : ℚ) - ((51 : ℤ) : ℚ)) * 60 = 30 := by norm_num
  rw [h2]
  have hf2 : ⌊(30 : ℚ)⌋ = 30 := by norm_num
  rw [hf2]
  have h3 : (((30 : ℚ) - ((30 : ℤ) : ℚ)) * 60) * 10 = 0 := by norm_num
  rw [h3]
  have hr : rhe (0 : ℚ) = 0 := by unfold rhe; norm_num
  rw [hr]
  refine Prod.ext ?_ ?_
  · exact decide_eq_true (by norm_num)
  · norm_num

lemma convert_zero : convert 0 = (false, (0, 0, 0)) := by
  simp only [convert]
  rw [abs_zero]
  have hf1 : ⌊(0 : ℚ)⌋ = 0 := by norm_num
  rw [hf1]
  have h2 : ((0 : ℚ) - ((0 : ℤ) : ℚ)) * 60 = 0 := by norm_num
  rw [h2, hf1]
  have h3 : (((0 : ℚ) - ((0 : ℤ) : ℚ)) * 60) * 10 = 0 := by norm_num
  rw [h3]
  have hr : rhe (0 : ℚ) = 0 := by unfold rhe; norm_num
  rw [hr]
  refine Prod.ext ?_ ?_
  · exact decide_eq_false (by norm_num : ¬ ((0 : ℚ) < 0))
  · norm_num

lemma capture_gps_block_south_example :
    capture_gps_block (-(103 / 2)) 0 = ⟨"S", (51, 30, 0), "E", (0, 0, 0)⟩ := by
  simp only [capture_gps_block, convert_neg_half_103, convert_zero]
  rfl

lemma extract_south_block_example (ts : String) :
    extract_coordinates_and_timestamp ⟨some ⟨"S", (51, 30, 0), "E", (0, 0, 0)⟩, some ts⟩ =
      some (103 / 2, 0, ts) := by
  simp only [extract_coordinates_and_timestamp]
  norm_num
  decide

/-- C1: the Geotag Extractor is claimed to negate the latitude exactly when
the latitude reference hemisphere entry (GPS entry 1) is `"S"` and the
longitude exactly when the longitude reference entry (GPS entry 3) is
`"W"`.  The code instead tests entry 3 against `"S"` and entry 1 against
`"W"` (src/main.py lines 124 and 126).  Evaluating the embedded extractor
at a GPS block whose latitude reference entry is `"S"` (latitude
51° 30' 0", longitude reference `"E"`, longitude 0): the returned latitude
is `+103/2 = 51.5`, not the `-103/2 = -51.5` the claim requires. -/
theorem c1_latitude_ref_code_bug :
    extract_coordinates_and_timestamp
        ⟨some ⟨"S", (51, 30, 0), "E", (0, 0, 0)⟩, some "2024:01:01 00:00:00"⟩ =
      some (103 / 2, 0, "2024:01:01 00:00:00") ∧ ((103 : ℚ) / 2) ≠ -(103 / 2) := by
  constructor
  · exact extract_south_block_example _
  · norm_num

/-- C2: encoding latitude 51° 30' 0.0" South (decimal `-51.5`) with
`convert` and the capture component's GPS block layout, then decoding with
the extractor, is claimed to reproduce `-51.5`.  Because the extractor
tests the wrong GPS entries for the hemisphere letters (see C1), the
decoded latitude of the round trip is `+51.5`: off by `103`, not a
floating-point-tolerance error. -/
theorem c2_roundtrip_code_bug :
    (capture_gps_block (-(103 / 2)) 0).entry1 = "S" ∧
    extract_coordinates_and_timestamp
        ⟨some (capture_gps_block (-(103 / 2)) 0), some "2024:01:01 00:00:00"⟩ =
      some (103 / 2, 0, "2024:01:01 00:00:00") ∧
    ((103 : ℚ) / 2) ≠ -(103 / 2) := by
  refine ⟨?_, ?_, by norm_num⟩
  · rw [capture_gps_block_south_example]
  · rw [capture_gps_block_south_example]
    exact extract_south_block_example _

/-- C7: the average-speed output line is a fixed-point decimal with exactly
4 fractional digits, the suffix `" km/s"` and a trailing newline; in
particular the value `7.66213` renders as the exact string
`"7.6621 km/s\n"`. -/
theorem c7_output_format :
    log_average_speed_line (766213 / 100000) = "7.6621 km/s\n" ∧
    ∀ q : ℚ, 0 ≤ q → ∃ ip fr : ℕ, fr < 10000 ∧ (pad4 fr).length = 4 ∧
      log_average_speed_line q = Nat.repr ip ++ "." ++ pad4 fr ++ " km/s\n" := by
  constructor
  · unfold log_average_speed_line
    rw [show |(766213 / 100000 : ℚ)| * 10000 = 766213 / 10 by
      rw [abs_of_nonneg (by norm_num : (0 : ℚ) ≤ 766213 / 100000)]; norm_num]
    rw [show rhe (766213 / 10 : ℚ) = 76621 by unfold rhe; norm_num]
    norm_num
    rfl
  · intro q hq
    refine ⟨(rhe (|q| * 10000)).toNat / 10000, (rhe (|q| * 10000)).toNat % 10000,
      Nat.mod_lt _ (by norm_num), rfl, ?_⟩
    simp only [log_average_speed_line]
    rw [if_neg (not_lt.mpr hq)]

/-- Witness for C7 at the concrete input `0`. -/
theorem c7_output_format_witness :
    ∃ ip fr : ℕ, fr < 10000 ∧ (pad4 fr).length = 4 ∧
      log_average_speed_line 0 = Nat.repr ip ++ "." ++ pad4 fr ++ " km/s\n" :=
  c7_output_format.2 0 le_rfl

/-- C3: an adjacent pair whose extractions both succeed contributes nothing
to `speed_data` whenever the image paths are identical, or the haversine
distance between the fixes is exactly zero, or the elapsed time is exactly
zero — and the rest of the sequence is aggregated exactly as it would be
with the pair's contribution removed, whatever the surrounding images. -/
theorem c3_degenerate_pair_skipped (a b : Image) (f1 f2 : Fix)
    (ha : a.exif = some f1) (hb : b.exif = some f2)
    (h : a.path = b.path ∨ haversine_distance f1.lat f1.lon f2.lat f2.lon = 0 ∨
      f2.ts - f1.ts = 0) (xs ys : List Image) :
    speedData (xs ++ a :: b :: ys) = speedData (xs ++ [a]) ++ speedData (b :: ys) :=
  speedData_split a b (contrib_of_cond a b f1 f2 ha hb h) xs ys

/-- Witness for C3: a pair of images with the same path contributes no
sample. -/
theorem c3_degenerate_pair_skipped_witness :
    speedData ([] ++ (⟨"dup.jpg", some ⟨0, 0, 0⟩⟩ : Image) ::
        (⟨"dup.jpg", some ⟨0, 90, 5⟩⟩ : Image) :: []) =
      speedData ([] ++ [⟨"dup.jpg", some ⟨0, 0, 0⟩⟩]) ++
        speedData [⟨"dup.jpg", some ⟨0, 90, 5⟩⟩] :=
  c3_degenerate_pair_skipped ⟨"dup.jpg", some ⟨0, 0, 0⟩⟩ ⟨"dup.jpg", some ⟨0, 90, 5⟩⟩
    ⟨0, 0, 0⟩ ⟨0, 90, 5⟩ rfl rfl (Or.inl rfl) [] []

/-- C4: the aggregated result is the arithmetic mean of the surviving
per-pair speeds; with zero surviving samples — in particular for an empty
or one-element image sequence — it is the defined fallback `0`. -/
theorem c4_average_fallback (xs : List Image) (i : Image) :
    (speedData xs ≠ [] →
      avg_speed xs = ((speedData xs).map SpeedSample.speed).sum / ((speedData xs).length : ℝ)) ∧
    (speedData xs = [] → avg_speed xs = 0) ∧
    avg_speed [] = 0 ∧ avg_speed [i] = 0 := by
  refine ⟨?_, ?_, ?_, ?_⟩
  · intro h
    unfold avg_speed
    rw [if_pos (List.length_pos.mpr h)]
  · intro h
    unfold avg_speed
    rw [h]
    simp
  · simp [avg_speed, speedData_nil]
  · simp [avg_speed, speedData_single]

/-- Witness for C4: the empty sequence and a one-image sequence both
average to `0`. -/
theorem c4_average_fallback_witness :
    avg_speed [] = 0 ∧ avg_speed [⟨"a.jpg", none⟩] = 0 :=
  ⟨(c4_average_fallback [] ⟨"a.jpg", none⟩).2.1 rfl,
   (c4_average_fallback [] ⟨"a.jpg", none⟩).2.2.2⟩

/-- C5: the Speed Estimator returns `|distance / seconds|` for every
nonzero duration, raises the division-by-zero error exactly when the
duration is zero, and such an error inside the aggregation loop removes
only the offending pair's contribution — the remaining pairs are
aggregated unchanged. -/
theorem c5_speed_estimator_contract (d t : ℝ) (hd : 0 ≤ d) :
    (t ≠ 0 → calculate_speed d t = some |d / t|) ∧
    (calculate_speed d t = none ↔ t = 0) ∧
    (∀ a b : Image, ∀ f1 f2 : Fix, a.exif = some f1 → b.exif = some f2 →
      calculate_speed (haversine_distance f1.lat f1.lon f2.lat f2.lon)
          (f2.ts - f1.ts) = none →
      contrib a b = none ∧
      ∀ xs ys, speedData (xs ++ a :: b :: ys) =
        speedData (xs ++ [a]) ++ speedData (b :: ys)) := by
  refine ⟨fun ht => calculate_speed_of_ne d t ht, calculate_speed_eq_none_iff d t, ?_⟩
  intro a b f1 f2 ha hb hcalc
  have ht : f2.ts - f1.ts = 0 := (calculate_speed_eq_none_iff _ _).mp hcalc
  have hnone : contrib a b = none := contrib_of_cond a b f1 f2 ha hb (Or.inr (Or.inr ht))
  exact ⟨hnone, fun xs ys => speedData_split a b hnone xs ys⟩

/-- Witness for C5 at concrete durations `0` and `2`. -/
theorem c5_speed_estimator_contract_witness :
    calculate_speed 1 0 = none ∧ calculate_speed 1 2 = some |1 / 2| :=
  ⟨((c5_speed_estimator_contract 1 0 zero_le_one).2.1).mpr rfl,
   (c5_speed_estimator_contract 1 2 zero_le_one).1 (by norm_num)⟩

/-- C6 counterexample: the degenerate-pair filter only excludes an elapsed
time that is exactly zero, so a pair whose timestamps are out of capture
order produces a `SpeedSample` whose elapsed time is negative — the claimed
invariant `0 < elapsed` fails on `speed_data`. -/
theorem c6_invariant_counterexample :
    ∃ s : SpeedSample,
      s ∈ speedData [⟨"rev1.jpg", some ⟨0, 0, 1⟩⟩, ⟨"rev2.jpg", some ⟨0, 180, 0⟩⟩] ∧
      ¬ (0 < s.elapsed) := by
  refine ⟨⟨haversine_distance 0 0 0 180, (0 : ℝ) - 1,
    |haversine_distance 0 0 0 180 / ((0 : ℝ) - 1)|⟩, ?_, by norm_num⟩
  rw [speedData_cons₂, speedData_single, List.append_nil,
    contrib_of_ok ⟨"rev1.jpg", some ⟨0, 0, 1⟩⟩ ⟨"rev2.jpg", some ⟨0, 180, 0⟩⟩
      ⟨0, 0, 1⟩ ⟨0, 180, 0⟩ rfl rfl (by simp) (ne_of_gt haversine_example_pos)
      (by norm_num)]
  exact List.mem_singleton.mpr rfl

/-- C6 (amended): every `SpeedSample` appended to `speed_data` has strictly
positive `dist` and *nonzero* (not necessarily positive) `elapsed`; the
filter of src/main.py lines 216–220 excludes only an exactly-zero distance
or elapsed time, so an out-of-capture-order pair still contributes, with a
negative elapsed time. -/
theorem c6_sample_invariant (xs : List Image) (s : SpeedSample)
    (hs : s ∈ speedData xs) : 0 < s.dist ∧ s.elapsed ≠ 0 := by
  induction xs with
  | nil => simp [speedData_nil] at hs
  | cons x xs ih =>
    cases xs with
    | nil => simp [speedData_single] at hs
    | cons y rest =>
      rw [speedData_cons₂] at hs
      rcases List.mem_append.mp hs with h | h
      · have hsome : contrib x y = some s := by
          cases hxy : contrib x y with
          | none =>
            rw [hxy] at h
            simp at h
          | some t =>
            rw [hxy] at h
            have hst : s = t := by simpa using h
            subst hst
            rfl
        obtain ⟨f1, f2, -, -, hdist, -, -, hd0, ht0⟩ := contrib_inv x y s hsome
        refine ⟨lt_of_le_of_ne ?_ (Ne.symm hd0), ht0⟩
        rw [hdist]
        exact haversine_nonneg _ _ _ _
      · exact ih h

/-- Witness for C6 (amended) on a concrete two-image sequence. -/
theorem c6_sample_invariant_witness :
    0 < (⟨haversine_distance 0 0 0 180, (1 : ℝ) - 0,
        |haversine_distance 0 0 0 180 / ((1 : ℝ) - 0)|⟩ : SpeedSample).dist ∧
    (⟨haversine_distance 0 0 0 180, (1 : ℝ) - 0,
        |haversine_distance 0 0 0 180 / ((1 : ℝ) - 0)|⟩ : SpeedSample).elapsed ≠ 0 :=
  c6_sample_invariant [⟨"fwd1.jpg", some ⟨0, 0, 0⟩⟩, ⟨"fwd2.jpg", some ⟨0, 180, 1⟩⟩] _
    (by
      rw [speedData_cons₂, speedData_single, List.append_nil,
        contrib_of_ok ⟨"fwd1.jpg", some ⟨0, 0, 0⟩⟩ ⟨"fwd2.jpg", some ⟨0, 180, 1⟩⟩
          ⟨0, 0, 0⟩ ⟨0, 180, 1⟩ rfl rfl (by simp) (ne_of_gt haversine_example_pos)
          (by norm_num)]
      exact List.mem_singleton.mpr rfl)

lemma hav_a_comm (lat1 lon1 lat2 lon2 : ℝ) :
    hav_a lat1 lon1 lat2 lon2 = hav_a lat2 lon2 lat1 lon1 := by
  simp only [hav_a]
  have h1 : (radians lat1 - radians lat2) / 2 = -((radians lat2 - radians lat1) / 2) := by
    ring
  have h2 : (radians lon1 - radians lon2) / 2 = -((radians lon2 - radians lon1) / 2) := by
    ring
  rw [h1, h2, Real.sin_neg, Real.sin_neg]
  ring

/-- C8: the great-circle distance of the code is symmetric in its two
fixes, for all in-range latitudes and longitudes. -/
theorem c8_haversine_symmetric (latA lonA latB lonB : ℝ)
    (hA1 : -90 ≤ latA ∧ latA ≤ 90) (hA2 : -180 ≤ lonA ∧ lonA ≤ 180)
    (hB1 : -90 ≤ latB ∧ latB ≤ 90) (hB2 : -180 ≤ lonB ∧ lonB ≤ 180) :
    haversine_distance latA lonA latB lonB = haversine_distance latB lonB latA lonA := by
  simp only [haversine_distance]
  rw [hav_a_comm]

/-- Witness for C8 at the fixes (0°, 0°) and (10°, 20°). -/
theorem c8_haversine_symmetric_witness :
    haversine_distance 0 0 10 20 = haversine_distance 10 20 0 0 :=
  c8_haversine_symmetric 0 0 10 20 ⟨by norm_num, by norm_num⟩ ⟨by norm_num, by norm_num⟩
    ⟨by norm_num, by norm_num⟩ ⟨by norm_num, by norm_num⟩

lemma cos_radians_lat_nonneg (lat : ℝ) (h1 : -90 ≤ lat) (h2 : lat ≤ 90) :
    0 ≤ Real.cos (radians lat) := by
  apply Real.cos_nonneg_of_mem_Icc
  have hpi := Real.pi_pos
  constructor
  · unfold radians
    nlinarith [mul_nonneg (by linarith : (0 : ℝ) ≤ lat + 90) hpi.le]
  · unfold radians
    nlinarith [mul_nonneg (by linarith : (0 : ℝ) ≤ 90 - lat) hpi.le]

lemma hav_a_le_one (lat1 lon1 lat2 lon2 : ℝ)
    (hc1 : 0 ≤ Real.cos (radians lat1)) (hc2 : 0 ≤ Real.cos (radians lat2)) :
    hav_a lat1 lon1 lat2 lon2 ≤ 1 := by
  unfold hav_a
  have hs1 : Real.sin ((radians lat2 - radians lat1) / 2) ^ 2 =
      (1 - Real.cos (radians lat2 - radians lat1)) / 2 := sin_half_sq _
  have hsu : Real.sin ((radians lon2 - radians lon1) / 2) ^ 2 ≤ 1 := Real.sin_sq_le_one _
  have hX : Real.cos (radians lat1) * Real.cos (radians lat2) *
      Real.sin ((radians lon2 - radians lon1) / 2) ^ 2 ≤
      Real.cos (radians lat1) * Real.cos (radians lat2) :=
    mul_le_of_le_one_right (mul_nonneg hc1 hc2) hsu
  have hcd : Real.cos (radians lat2 - radians lat1) =
      Real.cos (radians lat2) * Real.cos (radians lat1) +
        Real.sin (radians lat2) * Real.sin (radians lat1) := Real.cos_sub _ _
  have hca : Real.cos (radians lat1 + radians lat2) =
      Real.cos (radians lat1) * Real.cos (radians lat2) -
        Real.sin (radians lat1) * Real.sin (radians lat2) := Real.cos_add _ _
  have hle := Real.cos_le_one (radians lat1 + radians lat2)
  nlinarith [hs1, hX, hcd, hca, hle]

lemma hav_a_nonneg (lat1 lon1 lat2 lon2 : ℝ)
    (hc1 : 0 ≤ Real.cos (radians lat1)) (hc2 : 0 ≤ Real.cos (radians lat2)) :
    0 ≤ hav_a lat1 lon1 lat2 lon2 := by
  unfold hav_a
  have := mul_nonneg (mul_nonneg hc1 hc2)
    (sq_nonneg (Real.sin ((radians lon2 - radians lon1) / 2)))
  positivity

/-- C9: for in-range fixes, the intermediate haversine quantity `a` lies in
`[0, 1]`, so the arguments of both square roots (and hence of `atan2`) are
in domain; the distance is exactly `R * 2 * atan2(sqrt a, sqrt (1 - a))`
with those arguments. -/
theorem c9_hav_a_in_unit_interval (lat1 lon1 lat2 lon2 : ℝ)
    (h1 : -90 ≤ lat1 ∧ lat1 ≤ 90) (h2 : -180 ≤ lon1 ∧ lon1 ≤ 180)
    (h3 : -90 ≤ lat2 ∧ lat2 ≤ 90) (h4 : -180 ≤ lon2 ∧ lon2 ≤ 180) :
    0 ≤ hav_a lat1 lon1 lat2 lon2 ∧ hav_a lat1 lon1 lat2 lon2 ≤ 1 ∧
    haversine_distance lat1 lon1 lat2 lon2 =
      6779 * (2 * atan2 (Real.sqrt (hav_a lat1 lon1 lat2 lon2))
        (Real.sqrt (1 - hav_a lat1 lon1 lat2 lon2))) := by
  have hc1 := cos_radians_lat_nonneg lat1 h1.1 h1.2
  have hc2 := cos_radians_lat_nonneg lat2 h3.1 h3.2
  exact ⟨hav_a_nonneg lat1 lon1 lat2 lon2 hc1 hc2,
    hav_a_le_one lat1 lon1 lat2 lon2 hc1 hc2, rfl⟩

/-- Witness for C9 at the fixes (0°, 0°) and (0°, 180°). -/
theorem c9_hav_a_in_unit_interval_witness :
    0 ≤ hav_a 0 0 0 180 ∧ hav_a 0 0 0 180 ≤ 1 ∧
    haversine_distance 0 0 0 180 =
      6779 * (2 * atan2 (Real.sqrt (hav_a 0 0 0 180))
        (Real.sqrt (1 - hav_a 0 0 0 180))) :=
  c9_hav_a_in_unit_interval 0 0 0 180 ⟨by norm_num, by norm_num⟩
    ⟨by norm_num, by norm_num⟩ ⟨by norm_num, by norm_num⟩ ⟨by norm_num, by norm_num⟩

/-- C10: for any nonzero — in particular negative — duration the Speed
Estimator succeeds with a non-negative value (the absolute value is taken
after dividing), and an adjacent pair with distinct paths, nonzero distance
and *negative* elapsed time is not filtered out: it contributes the sample
`(distance, elapsed, |distance / elapsed|)`. -/
theorem c10_negative_duration (d t : ℝ) (ht : t ≠ 0) (a b : Image) (f1 f2 : Fix)
    (ha : a.exif = some f1) (hb : b.exif = some f2) (hp : ¬ a.path = b.path)
    (hd : haversine_distance f1.lat f1.lon f2.lat f2.lon ≠ 0)
    (hneg : f2.ts - f1.ts < 0) :
    (∃ v, calculate_speed d t = some v ∧ 0 ≤ v) ∧
    contrib a b = some ⟨haversine_distance f1.lat f1.lon f2.lat f2.lon, f2.ts - f1.ts,
      |haversine_distance f1.lat f1.lon f2.lat f2.lon / (f2.ts - f1.ts)|⟩ :=
  ⟨⟨|d / t|, calculate_speed_of_ne d t ht, abs_nonneg _⟩,
   contrib_of_ok a b f1 f2 ha hb hp hd (ne_of_lt hneg)⟩

/-- Witness for C10: duration `-2`, and a concrete out-of-order pair. -/
theorem c10_negative_duration_witness :
    (∃ v, calculate_speed 1 (-2) = some v ∧ 0 ≤ v) ∧
    contrib ⟨"neg1.jpg", some ⟨0, 0, 2⟩⟩ ⟨"neg2.jpg", some ⟨0, 180, 0⟩⟩ =
      some ⟨haversine_distance 0 0 0 180, (0 : ℝ) - 2,
        |haversine_distance 0 0 0 180 / ((0 : ℝ) - 2)|⟩ :=
  c10_negative_duration 1 (-2) (by norm_num)
    ⟨"neg1.jpg", some ⟨0, 0, 2⟩⟩ ⟨"neg2.jpg", some ⟨0, 180, 0⟩⟩ ⟨0, 0, 2⟩ ⟨0, 180, 0⟩
    rfl rfl (by simp) (ne_of_gt haversine_example_pos) (by norm_num)

end AstroPi
